import Mathlib

/-!
Shallow embedding of the Blade Runner Foundry VTT module sources:
the versioned-message display pass of `gulpfile.js`, the configuration
tables of `src/system/config.js` and `src/system/constants.js`, the item
roll of `src/item/item-document.js`, and (modelled from the spec where the
file is absent from the sources) the roll handler push action and the
custom semantic-version comparator.
-/

/-- Semantic version `major.minor.patch`, as compared by the version checks
of the message display pass. -/
structure SemVer where
  major : Nat
  minor : Nat
  patch : Nat
deriving DecidableEq, Repr

/-- Strict lexicographic order on semantic versions. -/
def versionLt (a b : SemVer) : Bool :=
  a.major < b.major ||
    (a.major == b.major && (a.minor < b.minor ||
      (a.minor == b.minor && a.patch < b.patch)))

/-- The host utility `foundry.utils.isNewerVersion(v1, v0)`: `true` exactly
when `v1` is strictly newer than `v0`. -/
def isNewerVersion (v1 v0 : SemVer) : Bool :=
  versionLt v0 v1

/-- Default lower bound `0.0.0` used when a message omits a minimum version. -/
def semverZero : SemVer := ⟨0, 0, 0⟩

/-- Default upper bound `100.0.0` used when a message omits a maximum version. -/
def semverHundred : SemVer := ⟨100, 0, 0⟩

/-- Modelled from the spec: `semverComp` is imported by the message module
from a utility file that is absent from the sources; per the spec it is a
custom range comparator with a configurable inclusive-lower option
(`gEqMin`), with the standard exclusive upper bound. -/
def semverComp (lo v hi : SemVer) (gEqMin : Bool) : Bool :=
  (if gEqMin then !versionLt v lo else versionLt lo v) && versionLt v hi

/-- One record of the message catalog `messages.jsonc`. -/
structure Message where
  title : String
  content : String
  type : String
  display : Option String
  minCoreVersion : Option SemVer
  maxCoreVersion : Option SemVer
  minSysVersion : Option SemVer
  maxSysVersion : Option SemVer
deriving DecidableEq, Repr

/-- JavaScript truthiness of an optional string field: `undefined` and the
empty string are falsy, every other string is truthy. -/
def jsTruthy : Option String → Bool
  | none => false
  | some s => s ≠ ""

/-- JavaScript strict equality between a Boolean and a String: the operands
have different types, so the result is always `false`. This translates the
sub-expression `!msg.display === 'once'` of `isCurrent`, which JavaScript
parses as `(!msg.display) === 'once'` because unary `!` binds tighter. -/
def jsStrictEqBoolString (_ : Bool) (_ : String) : Bool := false

/-- `hasDisplayed` from the message module: whether the persisted settings
list already includes the identifier. -/
def hasDisplayed (settings : List String) (identifier : String) : Bool :=
  settings.contains identifier

/-- `isCurrent` from the message module, translated clause by clause:
`isDisplayable` is `(!msg.display === 'once') || !hasDisplayed(msg.title)`,
the core-version check uses strict `isNewerVersion` on both bounds, and the
system-version check calls `semverComp` with the inclusive-lower option. -/
def isCurrent (settings : List String) (gameVersion sysVersion : SemVer)
    (msg : Message) : Bool :=
  let isDisplayable :=
    jsStrictEqBoolString (!jsTruthy msg.display) "once" ||
      !hasDisplayed settings msg.title
  let correctCoreVersion :=
    isNewerVersion (msg.maxCoreVersion.getD semverHundred) gameVersion &&
      isNewerVersion gameVersion (msg.minCoreVersion.getD semverZero)
  let correctSysVersion :=
    semverComp (msg.minSysVersion.getD semverZero) sysVersion
      (msg.maxSysVersion.getD semverHundred) true
  isDisplayable && correctCoreVersion && correctSysVersion

/-- `setDisplayed`: reads the settings list, pushes the identifier and stores
the flattened result; `Array.prototype.flat` on a list of strings is the
identity, so the stored value is the list with the identifier appended. -/
def setDisplayed (settings : List String) (identifier : String) : List String :=
  settings ++ [identifier]

/-- A user-visible effect of the display pass: a dialog prompt or a whispered
chat message. -/
inductive DisplayAction where
  | prompt (title content : String)
  | chat (title content : String)
deriving DecidableEq, Repr

/-- `handleDisplay`: skips a message that is not current, then dispatches on
its `type` field. The prompt dialog confirmation callback, which records the
title, is modelled as invoked immediately. -/
def handleDisplay (gameVersion sysVersion : SemVer) (msg : Message)
    (settings : List String) : List String × List DisplayAction :=
  if !isCurrent settings gameVersion sysVersion msg then (settings, [])
  else if msg.type == "prompt" then
    (setDisplayed settings msg.title, [DisplayAction.prompt msg.title msg.content])
  else if msg.type == "chat" then
    (setDisplayed settings msg.title, [DisplayAction.chat msg.title msg.content])
  else (settings, [])

/-- Skip to the next line terminator, as the regular-expression wildcard of
`stripJSON` matches every character except a line terminator. -/
def dropLine : List Char → List Char
  | [] => []
  | c :: rest => if c = '\n' || c = '\r' then c :: rest else dropLine rest

theorem dropLine_length_le (l : List Char) : (dropLine l).length ≤ l.length := by
  induction l with
  | nil => simp [dropLine]
  | cons c rest ih =>
    simp only [dropLine]
    split
    · exact Nat.le_refl _
    · exact Nat.le_succ_of_le ih

/-- Character-level translation of the global replacement in `stripJSON`:
each match of a non-colon character followed by two slashes and the rest of
the line is removed, and scanning resumes after the match. -/
def stripJSONAux (l : List Char) : List Char :=
  match l with
  | [] => []
  | c :: '/' :: '/' :: rest =>
    if c = ':' then c :: stripJSONAux ('/' :: '/' :: rest)
    else stripJSONAux (dropLine rest)
  | c :: rest => c :: stripJSONAux rest
termination_by l.length
decreasing_by
  · simp
  · have h := dropLine_length_le rest
    simp
    omega
  · simp

/-- `stripJSON`: removes line comments from the fetched catalog text before
it is parsed. -/
def stripJSON (data : String) : String :=
  String.mk (stripJSONAux data.data)

/-- `displayMessages`: fetches the catalog, strips line comments, parses the
result and handles each message in order. The host `JSON.parse` is
abstracted as the `parse` argument; a parse failure rejects the promise, so
no message is handled. -/
def displayMessages (parse : String → Option (List Message))
    (gameVersion sysVersion : SemVer) (fetched : String)
    (settings : List String) : List String × List DisplayAction :=
  match parse (stripJSON fetched) with
  | none => (settings, [])
  | some messages =>
    messages.foldl
      (fun acc msg =>
        let r := handleDisplay gameVersion sysVersion msg acc.1
        (r.1, acc.2 ++ r.2))
      (settings, [])

/-- `NATURES` from `constants.js`. -/
inductive Nature where
  | human
  | replicant
deriving DecidableEq, Repr

/-- `ATTRIBUTES` from `constants.js`; `mvr` is the vehicle maneuverability
attribute. -/
inductive Attribute where
  | str
  | agi
  | int
  | emp
  | mvr
deriving DecidableEq, Repr

/-- `CAPACITIES` from `constants.js`. -/
inductive Capacity where
  | health
  | resolve
deriving DecidableEq, Repr

/-- `FLBR.maxPushMap` from `config.js`. -/
def maxPushMap : Nature → Nat
  | Nature.human => 1
  | Nature.replicant => 2

/-- `FLBR.pushTraumaMap` from `config.js`; its keys are the four character
attributes, the vehicle attribute is absent from the map. -/
def pushTraumaMap : Nature → Attribute → Option Capacity
  | Nature.human, Attribute.str => some Capacity.health
  | Nature.human, Attribute.agi => some Capacity.health
  | Nature.human, Attribute.int => some Capacity.resolve
  | Nature.human, Attribute.emp => some Capacity.resolve
  | Nature.replicant, Attribute.str => some Capacity.resolve
  | Nature.replicant, Attribute.agi => some Capacity.resolve
  | Nature.replicant, Attribute.int => some Capacity.resolve
  | Nature.replicant, Attribute.emp => some Capacity.resolve
  | _, Attribute.mvr => none

/-- `FLBR.scoreMap` in insertion order: the blank placeholder first, then
the `DIE_SCORES` entries `A, B, C, D` from `constants.js`. -/
def scoreMapList : List (String × Nat) :=
  [("–", 0), ("A", 12), ("B", 10), ("C", 8), ("D", 6)]

/-- `FLBR.dieMap`: built from `scoreMap` with keys and values swapped. -/
def dieMapList : List (Nat × String) :=
  scoreMapList.map (fun p => (p.2, p.1))

/-- Lookup in `FLBR.scoreMap`. -/
def scoreMap (k : String) : Option Nat := scoreMapList.lookup k

/-- Lookup in `FLBR.dieMap`. -/
def dieMap (n : Nat) : Option String := dieMapList.lookup n

/-- `Object.values(ATTRIBUTES)` from `constants.js`, in source order. -/
def attributeValues : List String := ["str", "agi", "int", "emp", "mvr"]

/-- `FLBR.vehicleAttribute`. -/
def vehicleAttribute : String := "mvr"

/-- `FLBR.attributes`: every attribute value except the vehicle one. -/
def attributes : List String :=
  attributeValues.filter (fun a => a ≠ vehicleAttribute)

/-- `Object.values(SKILLS)` from `constants.js`, in source order. -/
def skillValues : List String :=
  ["force", "closeCombat", "stamina", "firearms", "mobility", "stealth",
   "medicalAid", "observation", "tech", "driving", "connections", "insight",
   "manipulation"]

/-- `FLBR.skillMap` from `config.js`, in source order: each skill key paired
with its governing attribute value. -/
def skillMap : List (String × String) :=
  [("closeCombat", "str"), ("force", "str"), ("stamina", "str"),
   ("firearms", "agi"), ("mobility", "agi"), ("stealth", "agi"),
   ("medicalAid", "int"), ("observation", "int"), ("tech", "int"),
   ("connections", "emp"), ("insight", "emp"), ("manipulation", "emp"),
   ("driving", "mvr")]

/-- `FLBR.skills`: the keys of `FLBR.skillMap`. -/
def skills : List String := skillMap.map Prod.fst

/-- The owning actor as the item roll reads it: its nature and its
`getAttribute` and `getSkill` accessors, which return `0` for a missing
score. -/
structure ItemActor where
  nature : Nature
  getAttribute : String → Nat
  getSkill : String → Nat

/-- The item fields read by `BladeRunnerItem.roll`: the source fields are
`props.attribute` and `props.skill`, named here after the local bindings
`attributeKey` and `skillKey` that `roll` assigns them to. -/
structure BRItem where
  name : String
  rollable : Bool
  attributeKey : String
  skillKey : Option String

/-- The arguments handed to the roll handler constructor by
`BladeRunnerItem.roll`. -/
structure BRRollHandlerSpec where
  title : String
  attributeKey : String
  skillKey : Option String
  dice : List Nat
  maxPush : Nat
deriving DecidableEq, Repr

/-- `BladeRunnerItem.roll`: returns early (`none`) when the item is not
rollable or has no owning actor; otherwise it reads the attribute and skill
scores, builds the dice list — a JavaScript-falsy score of `0` pushes no
die, and an absent skill key yields an undefined, falsy skill value — and
constructs the roll handler arguments with `maxPushMap` at the actor's
nature. The localized title text and the aggregated modifiers are host-side
concerns elided here; the title keeps the item name. -/
def roll (item : BRItem) (actor : Option ItemActor) : Option BRRollHandlerSpec :=
  if !item.rollable then none
  else
    match actor with
    | none => none
    | some actor =>
      let attributeValue := actor.getAttribute item.attributeKey
      let skillValue :=
        match item.skillKey with
        | none => 0
        | some k => actor.getSkill k
      let dice :=
        (if attributeValue ≠ 0 then [attributeValue] else []) ++
          (if skillValue ≠ 0 then [skillValue] else [])
      some { title := item.name, attributeKey := item.attributeKey,
             skillKey := item.skillKey, dice := dice,
             maxPush := maxPushMap actor.nature }

/-- The mutable state of an evaluated roll: each die as a pair of its size
and its current face, and the remaining push count. -/
structure PushState where
  dice : List (Nat × Nat)
  remaining : Nat
deriving DecidableEq, Repr

/-- Modelled from the spec: the roll handler source
(`src/components/roll/roller`) is absent from the sources. Per the spec the
push action re-evaluates only dice that did not show a success face and
decrements the remaining push count, and a push beyond the maximum — when
the remaining count is zero — is rejected silently, leaving the roll
unchanged. The success-face predicate and the reroll outcome are abstracted
as arguments. -/
def push (isSuccess : Nat → Bool) (reroll : Nat → Nat) (st : PushState) :
    PushState :=
  if st.remaining = 0 then st
  else
    { dice := st.dice.map (fun d => if isSuccess d.2 then d else (d.1, reroll d.1)),
      remaining := st.remaining - 1 }

theorem versionLt_self (v : SemVer) : versionLt v v = false := by
  simp [versionLt]

/-- Claim C1: the display pass evaluates `!msg.display === 'once'` with the
unary `!` binding first, so the boolean-vs-string comparison is constantly
false and eligibility always requires the title to be unrecorded; a message
with display scope `every` whose title is already in the shown-list is NOT
eligible, refuting the claim that scope `every` keeps it eligible. -/
theorem isCurrent_ignores_every_scope :
    isCurrent ["Update Notes"] ⟨10, 0, 0⟩ ⟨5, 0, 0⟩
      { title := "Update Notes", content := "hello", type := "prompt",
        display := some "every", minCoreVersion := none, maxCoreVersion := none,
        minSysVersion := none, maxSysVersion := none } = false := by
  decide

/-- Claim C2: the maximum push count is the fixed per-nature map value
(human one, replicant two); an item roll passes `maxPushMap` at the actor's
nature to the roll handler; and a push when no pushes remain leaves the roll
state unchanged. -/
theorem maxPush_spec :
    maxPushMap Nature.human = 1 ∧ maxPushMap Nature.replicant = 2 ∧
    (∀ (item : BRItem) (actor : ItemActor) (sp : BRRollHandlerSpec),
      roll item (some actor) = some sp → sp.maxPush = maxPushMap actor.nature) ∧
    (∀ (isSuccess : Nat → Bool) (reroll : Nat → Nat) (st : PushState),
      st.remaining = 0 → push isSuccess reroll st = st) := by
  refine ⟨rfl, rfl, ?_, ?_⟩
  · intro item actor sp h
    cases hr : item.rollable with
    | false => simp [roll, hr] at h
    | true =>
      simp [roll, hr] at h
      subst h
      rfl
  · intro isSuccess reroll st h
    simp [push, h]

/-- Concrete instantiation of `maxPush_spec`: a rollable item owned by a
human actor yields a handler with maximum push count `maxPushMap human`,
and a push with zero remaining pushes is the identity. -/
theorem maxPush_spec_witness :
    BRRollHandlerSpec.maxPush
        { title := "Baton", attributeKey := "str", skillKey := some "closeCombat",
          dice := [10, 8], maxPush := 1 } = maxPushMap Nature.human ∧
    push (fun _ => false) (fun n => n) { dice := [(10, 3)], remaining := 0 }
      = { dice := [(10, 3)], remaining := 0 } := by
  constructor
  · exact maxPush_spec.2.2.1
      { name := "Baton", rollable := true, attributeKey := "str",
        skillKey := some "closeCombat" }
      { nature := Nature.human, getAttribute := fun _ => 10,
        getSkill := fun _ => 8 }
      { title := "Baton", attributeKey := "str", skillKey := some "closeCombat",
        dice := [10, 8], maxPush := 1 }
      (by decide)
  · exact maxPush_spec.2.2.2 (fun _ => false) (fun n => n)
      { dice := [(10, 3)], remaining := 0 } rfl

/-- Claim C3: the push-trauma table sends a human's strength and agility to
health and intelligence and empathy to resolve, and sends every replicant
character attribute to resolve. -/
theorem pushTraumaMap_spec :
    pushTraumaMap Nature.human Attribute.str = some Capacity.health ∧
    pushTraumaMap Nature.human Attribute.agi = some Capacity.health ∧
    pushTraumaMap Nature.human Attribute.int = some Capacity.resolve ∧
    pushTraumaMap Nature.human Attribute.emp = some Capacity.resolve ∧
    pushTraumaMap Nature.replicant Attribute.str = some Capacity.resolve ∧
    pushTraumaMap Nature.replicant Attribute.agi = some Capacity.resolve ∧
    pushTraumaMap Nature.replicant Attribute.int = some Capacity.resolve ∧
    pushTraumaMap Nature.replicant Attribute.emp = some Capacity.resolve := by
  decide

/-- Claim C4 counterexample: a message whose minimum host-version bound
exactly equals the running host version is not displayed — the core check
uses strict `isNewerVersion` on both sides, so the host lower bound is
exclusive, contradicting the claimed inclusive lower bound. -/
theorem isCurrent_minCore_boundary_counterexample :
    isCurrent [] ⟨10, 0, 0⟩ ⟨5, 0, 0⟩
      { title := "News", content := "news", type := "chat",
        display := none, minCoreVersion := some ⟨10, 0, 0⟩,
        maxCoreVersion := none, minSysVersion := none,
        maxSysVersion := none } = false := by
  decide

/-- Claim C4 amended: the module-version (system) range has an inclusive
lower and an exclusive upper bound, while the host-core-version range is
exclusive on both ends: a message whose minimum or maximum core bound
equals the running host version, or whose maximum system bound equals the
running system version, is not eligible; one whose minimum system bound
equals the running system version is eligible when every other condition
holds. -/
theorem isCurrent_version_bounds_amended :
    (∀ (settings : List String) (gv sv : SemVer) (msg : Message),
      msg.minCoreVersion = some gv → isCurrent settings gv sv msg = false) ∧
    (∀ (settings : List String) (gv sv : SemVer) (msg : Message),
      msg.maxCoreVersion = some gv → isCurrent settings gv sv msg = false) ∧
    (∀ (settings : List String) (gv sv : SemVer) (msg : Message),
      msg.maxSysVersion = some sv → isCurrent settings gv sv msg = false) ∧
    (∀ (settings : List String) (gv sv : SemVer) (msg : Message),
      msg.minSysVersion = some sv →
      hasDisplayed settings msg.title = false →
      versionLt gv (msg.maxCoreVersion.getD semverHundred) = true →
      versionLt (msg.minCoreVersion.getD semverZero) gv = true →
      versionLt sv (msg.maxSysVersion.getD semverHundred) = true →
      isCurrent settings gv sv msg = true) := by
  refine ⟨?_, ?_, ?_, ?_⟩
  · intro settings gv sv msg h
    simp [isCurrent, isNewerVersion, h, versionLt_self]
  · intro settings gv sv msg h
    simp [isCurrent, isNewerVersion, h, versionLt_self]
  · intro settings gv sv msg h
    simp [isCurrent, isNewerVersion, semverComp, h, versionLt_self]
  · intro settings gv sv msg h1 h2 h3 h4 h5
    simp [isCurrent, isNewerVersion, semverComp, jsStrictEqBoolString,
      h1, h2, h3, h4, h5, versionLt_self]

/-- Concrete instantiation of `isCurrent_version_bounds_amended` at the four
boundary situations. -/
theorem isCurrent_version_bounds_amended_witness :
    isCurrent [] ⟨3, 1, 4⟩ ⟨2, 0, 0⟩
      { title := "a", content := "", type := "chat", display := none,
        minCoreVersion := some ⟨3, 1, 4⟩, maxCoreVersion := none,
        minSysVersion := none, maxSysVersion := none } = false ∧
    isCurrent [] ⟨3, 1, 4⟩ ⟨2, 0, 0⟩
      { title := "b", content := "", type := "chat", display := none,
        minCoreVersion := none, maxCoreVersion := some ⟨3, 1, 4⟩,
        minSysVersion := none, maxSysVersion := none } = false ∧
    isCurrent [] ⟨3, 1, 4⟩ ⟨2, 0, 0⟩
      { title := "c", content := "", type := "chat", display := none,
        minCoreVersion := none, maxCoreVersion := none,
        minSysVersion := none, maxSysVersion := some ⟨2, 0, 0⟩ } = false ∧
    isCurrent [] ⟨3, 1, 4⟩ ⟨2, 0, 0⟩
      { title := "d", content := "", type := "chat", display := none,
        minCoreVersion := none, maxCoreVersion := none,
        minSysVersion := some ⟨2, 0, 0⟩, maxSysVersion := none } = true := by
  refine ⟨?_, ?_, ?_, ?_⟩
  · exact isCurrent_version_bounds_amended.1 [] ⟨3, 1, 4⟩ ⟨2, 0, 0⟩ _ rfl
  · exact isCurrent_version_bounds_amended.2.1 [] ⟨3, 1, 4⟩ ⟨2, 0, 0⟩ _ rfl
  · exact isCurrent_version_bounds_amended.2.2.1 [] ⟨3, 1, 4⟩ ⟨2, 0, 0⟩ _ rfl
  · exact isCurrent_version_bounds_amended.2.2.2 [] ⟨3, 1, 4⟩ ⟨2, 0, 0⟩ _
      rfl rfl (by decide) (by decide) (by decide)

/-- Claim C5 counterexample: `setDisplayed` appends unconditionally, so
recording a title that is already in the persisted list produces a
duplicate — the at-most-once invariant is not preserved by the operation
itself. -/
theorem setDisplayed_duplicate_counterexample :
    List.Nodup ["Welcome!"] ∧
    ¬ List.Nodup (setDisplayed ["Welcome!"] "Welcome!") := by
  decide

/-- Claim C5 amended: `setDisplayed` preserves the at-most-once invariant
only under its callers' guard that the identifier is not already recorded
(the `hasDisplayed` check inside `isCurrent`): appending a fresh identifier
to a duplicate-free list keeps it duplicate-free. -/
theorem setDisplayed_nodup_preserved (settings : List String)
    (identifier : String) (hnd : settings.Nodup)
    (hfresh : hasDisplayed settings identifier = false) :
    (setDisplayed settings identifier).Nodup := by
  have hmem : identifier ∉ settings := by
    simpa [hasDisplayed] using hfresh
  rw [setDisplayed, List.nodup_append]
  refine ⟨hnd, List.nodup_singleton _, ?_⟩
  intro a ha hb
  simp at hb
  subst hb
  exact hmem ha

/-- Concrete instantiation of `setDisplayed_nodup_preserved`. -/
theorem setDisplayed_nodup_preserved_witness :
    (setDisplayed ["a"] "b").Nodup :=
  setDisplayed_nodup_preserved ["a"] "b" (by decide) (by decide)

/-- Claim C6: for each die score 6, 8, 10 and 12, looking the score up in
the die map and the resulting label back up in the score map returns the
original score. -/
theorem die_score_roundtrip :
    (dieMap 6).bind scoreMap = some 6 ∧
    (dieMap 8).bind scoreMap = some 8 ∧
    (dieMap 10).bind scoreMap = some 10 ∧
    (dieMap 12).bind scoreMap = some 12 := by
  decide

/-- Claim C7: a zero (missing) attribute or skill score contributes no die
— the constructed dice list never contains a zero-sized die — and with
attribute score 10 and skill score 8 the list is exactly `[10, 8]`. -/
theorem roll_dice_construction :
    (∀ (item : BRItem) (actor : ItemActor) (sp : BRRollHandlerSpec),
      roll item (some actor) = some sp → 0 ∉ sp.dice) ∧
    (∀ (item : BRItem) (actor : ItemActor) (sp : BRRollHandlerSpec)
      (k : String),
      item.skillKey = some k → actor.getAttribute item.attributeKey = 10 →
      actor.getSkill k = 8 → roll item (some actor) = some sp →
      sp.dice = [10, 8]) := by
  constructor
  · intro item actor sp h
    cases hr : item.rollable with
    | false => simp [roll, hr] at h
    | true =>
      simp [roll, hr] at h
      subst h
      cases hk : item.skillKey with
      | none =>
        by_cases ha : actor.getAttribute item.attributeKey = 0 <;>
          simp [ha]
        omega
      | some k =>
        by_cases ha : actor.getAttribute item.attributeKey = 0 <;>
          by_cases hs : actor.getSkill k = 0 <;>
            simp [ha, hs] <;> omega
  · intro item actor sp k hk ha hs h
    cases hr : item.rollable with
    | false => simp [roll, hr] at h
    | true =>
      simp [roll, hr, hk, ha, hs] at h
      subst h
      rfl

/-- Concrete instantiation of `roll_dice_construction`: an actor with
attribute score 10 and skill score 8 produces the dice list `[10, 8]`,
which contains no zero die. -/
theorem roll_dice_construction_witness :
    0 ∉ ({ title := "Blaster", attributeKey := "agi",
           skillKey := some "firearms", dice := [10, 8],
           maxPush := 2 } : BRRollHandlerSpec).dice ∧
    ({ title := "Blaster", attributeKey := "agi",
       skillKey := some "firearms", dice := [10, 8],
       maxPush := 2 } : BRRollHandlerSpec).dice = [10, 8] := by
  constructor
  · exact roll_dice_construction.1
      { name := "Blaster", rollable := true, attributeKey := "agi",
        skillKey := some "firearms" }
      { nature := Nature.replicant, getAttribute := fun _ => 10,
        getSkill := fun _ => 8 }
      { title := "Blaster", attributeKey := "agi", skillKey := some "firearms",
        dice := [10, 8], maxPush := 2 }
      (by decide)
  · exact roll_dice_construction.2
      { name := "Blaster", rollable := true, attributeKey := "agi",
        skillKey := some "firearms" }
      { nature := Nature.replicant, getAttribute := fun _ => 10,
        getSkill := fun _ => 8 }
      { title := "Blaster", attributeKey := "agi", skillKey := some "firearms",
        dice := [10, 8], maxPush := 2 }
      "firearms" rfl rfl rfl (by decide)

/-- Claim C8 counterexample: the character attribute list `FLBR.attributes`
filters the vehicle-maneuverability attribute out of the five-entry
enumeration, leaving four character attributes, not five. -/
theorem attributes_count_counterexample :
    attributes.length = 4 ∧ attributes.length ≠ 5 := by
  decide

/-- Claim C8 amended: the attribute enumeration has five named attributes,
of which the character model keeps four (the vehicle attribute is
excluded); there are thirteen named skills, and the skill map assigns each
of the thirteen exactly one governing attribute — its keys are exactly the
thirteen skills, without duplicates. -/
theorem model_counts_amended :
    attributeValues.length = 5 ∧ attributes.length = 4 ∧
    skillValues.length = 13 ∧ skills.length = 13 ∧
    (skillMap.map Prod.fst).Nodup ∧
    (skillValues.all fun s => (skillMap.lookup s).isSome) = true ∧
    (skillMap.all fun p => skillValues.contains p.1) = true := by
  decide

/-- Claim C9: when the comment-stripped catalog text fails to parse, the
display pass aborts before handling any message — the settings list is
unchanged and nothing is displayed. -/
theorem displayMessages_aborts_on_parse_failure
    (parse : String → Option (List Message)) (gameVersion sysVersion : SemVer)
    (fetched : String) (settings : List String)
    (h : parse (stripJSON fetched) = none) :
    displayMessages parse gameVersion sysVersion fetched settings
      = (settings, []) := by
  unfold displayMessages
  rw [h]

/-- Concrete instantiation of `displayMessages_aborts_on_parse_failure`. -/
theorem displayMessages_aborts_on_parse_failure_witness :
    displayMessages (fun _ => none) ⟨11, 315, 0⟩ ⟨1, 2, 3⟩
      "not json // comment" [] = ([], []) :=
  displayMessages_aborts_on_parse_failure (fun _ => none) ⟨11, 315, 0⟩
    ⟨1, 2, 3⟩ "not json // comment" [] rfl

/-- Claim C10: `roll` returns immediately — no roll handler is constructed
— when the item is not rollable or has no owning actor. -/
theorem roll_guard_returns_none (item : BRItem) (actor : Option ItemActor)
    (h : item.rollable = false ∨ actor = none) :
    roll item actor = none := by
  rcases h with h | h
  · simp [roll, h]
  · subst h
    cases hr : item.rollable <;> simp [roll, hr]

/-- Concrete instantiation of `roll_guard_returns_none`. -/
theorem roll_guard_returns_none_witness :
    roll { name := "Note", rollable := false, attributeKey := "int",
           skillKey := none } none = none :=
  roll_guard_returns_none _ none (Or.inl rfl)
